import Mathlib

/-!
Shallow embedding of `src/main.py` of the x-poster-mcp repository: a small
FastAPI service exposing one MCP tool (`send_tweet`) behind an OAuth2-like
authorization-code flow.  Python dicts holding JSON data are embedded as
structures carrying exactly the fields the code reads or writes; the three
global dict tables (`oauth_clients`, `oauth_codes`, `access_tokens`) are
embedded as association lists with first-match lookup and delete-all erasure
(Python dict keys are unique, so the two semantics agree on reachable
states); `datetime.utcnow()` is passed in explicitly as a `Nat` timestamp
(seconds); `secrets.token_urlsafe` results are passed in as explicit fresh
strings; the external call `client.create_tweet` is an oracle parameter
returning `Except` (exception message, or created tweet id).
-/

/-- JSON-RPC request/response id: the Python code moves the decoded `id`
value through unchanged; a JSON number or string (absent / JSON null are both
`none`, matching `request_data.get("id")`). -/
inductive JId where
  | num (n : Int)
  | str (s : String)
deriving DecidableEq, Repr

/-- One entry of `self.tools` (src/main.py:39-54): static metadata of the
single exposed tool, with the `inputSchema` flattened to the description of
its one `text` property and its `required` list. -/
structure ToolDescriptor where
  name : String
  description : String
  textDescription : String
  required : List String
deriving DecidableEq, Repr

/-- The `result` payloads `handle_request` builds: the `initialize` object
(src/main.py:63-76, with the constant `capabilities: \x7btools: \x7d\x7d` implicit),
the `tools/list` object (79-83), and the single-element `content` array of a
`send_tweet` outcome (110-135, always `type: "text"`, so only the text is
carried). -/
inductive RpcResult where
  | initResult (protocolVersion serverName serverVersion : String)
  | toolsList (tools : List ToolDescriptor)
  | content (text : String)
deriving DecidableEq, Repr

/-- Body of a JSON-RPC response: either a `result` or an `error` object with
`code` and `message` (the constant `"jsonrpc": "2.0"` field is implicit). -/
inductive RpcBody where
  | result (r : RpcResult)
  | error (code : Int) (message : String)
deriving DecidableEq, Repr

/-- A JSON-RPC response dict as built by `handle_request` / `send_tweet`. -/
structure RpcResponse where
  id : Option JId
  body : RpcBody
deriving DecidableEq, Repr

/-- The `arguments` dict of a `tools/call` request as `send_tweet` reads it:
the code only ever accesses `args["text"]` (src/main.py:102), so the dict is
embedded as that lookup's outcome; `none` models a missing `"text"` key, on
which the access raises `KeyError('text')`. -/
structure TweetArgs where
  text : Option String
deriving DecidableEq, Repr

/-- The `params` dict of a request as `handle_request` reads it:
`params.get("name")` and `params.get("arguments", \x7b\x7d)` (src/main.py:87-88). -/
structure ToolParams where
  name : Option String
  arguments : TweetArgs
deriving DecidableEq, Repr

/-- A decoded JSON-RPC request as `handle_request` reads it:
`request_data.get("method")`, `request_data.get("id")`,
`request_data.get("params", \x7b\x7d)` (src/main.py:57-58, 86). -/
structure RpcRequest where
  method : Option String
  id : Option JId
  params : Option ToolParams
deriving DecidableEq, Repr

/-- The defaulted `params` (`request_data.get("params", \x7b\x7d)`): a missing
`params` key behaves as an empty dict, whose `get`s return `None`. -/
def defaultParams : ToolParams := { name := none, arguments := { text := none } }

/-- The static `self.tools` list (src/main.py:39-54). -/
def mcpTools : List ToolDescriptor :=
  [{ name := "send_tweet",
     description := "Send a tweet to X/Twitter",
     textDescription := "The tweet text to post (max 280 characters)",
     required := ["text"] }]

/-- Python `str(KeyError('text'))`, the message of the exception raised by
`args["text"]` when the key is absent: the repr of the key, `'text'`. -/
def keyErrorText : String := "'text'"

/-- Embedding of `XPosterMCP.send_tweet` (src/main.py:99-135).  `api` is the
external call `client.create_tweet(text=...)` together with the subsequent
`response.data['id']` access: `.ok tid` yields the created tweet id, `.error e`
a raised exception with `str(e) = e`.  The second component of the result
records whether the external call was invoked (it is not for a `KeyError` on
the missing `"text"` argument, which the `except` block turns into a
failure-text result).  No validation of the text happens before the call. -/
def send_tweet (api : String → Except String String)
    (request_id : Option JId) (args : TweetArgs) : RpcResponse × Bool :=
  match args.text with
  | none =>
    ({ id := request_id,
       body := .result (.content ("❌ Failed to post tweet: " ++ keyErrorText)) }, false)
  | some tweet_text =>
    match api tweet_text with
    | .ok tweet_id =>
      ({ id := request_id,
         body := .result (.content
           ("✅ Tweet posted successfully!\n\nTweet: " ++ tweet_text ++
            "\nURL: " ++ ("https://twitter.com/user/status/" ++ tweet_id))) }, true)
    | .error e =>
      ({ id := request_id,
         body := .result (.content ("❌ Failed to post tweet: " ++ e)) }, true)

/-- Embedding of `XPosterMCP.handle_request` (src/main.py:56-97).  The
`auth_token` parameter is kept because the Python method takes it — the body
never reads it.  A `tools/call` whose tool name is not `"send_tweet"` falls
through, like every unknown method, to the `-32601` response.  The second
component records whether the external posting call was invoked. -/
def handle_request (api : String → Except String String)
    (auth_token : Option String) (request_data : RpcRequest) : RpcResponse × Bool :=
  if request_data.method = some "initialize" then
    ({ id := request_data.id,
       body := .result (.initResult "2024-11-05" "x-poster-mcp" "1.0.0") }, false)
  else if request_data.method = some "tools/list" then
    ({ id := request_data.id, body := .result (.toolsList mcpTools) }, false)
  else if request_data.method = some "tools/call" then
    if (request_data.params.getD defaultParams).name = some "send_tweet" then
      send_tweet api request_data.id (request_data.params.getD defaultParams).arguments
    else
      ({ id := request_data.id, body := .error (-32601) "Method not found" }, false)
  else
    ({ id := request_data.id, body := .error (-32601) "Method not found" }, false)

/-- Value of an `oauth_clients` entry (src/main.py:163-168); `created_at` is
kept as a `Nat` timestamp. -/
structure ClientData where
  client_secret : String
  redirect_uris : List String
  client_name : String
  created_at : Nat
deriving DecidableEq, Repr

/-- Value of an `oauth_codes` entry (src/main.py:205-210). -/
structure CodeData where
  client_id : String
  redirect_uri : String
  scope : String
  expires_at : Nat
deriving DecidableEq, Repr

/-- Value of an `access_tokens` entry (src/main.py:258-262). -/
structure TokenData where
  client_id : String
  scope : String
  expires_at : Nat
deriving DecidableEq, Repr

/-- The three module-level dict tables (src/main.py:23-25), embedded as
association lists. -/
structure OAuthState where
  oauth_clients : List (String × ClientData)
  oauth_codes : List (String × CodeData)
  access_tokens : List (String × TokenData)
deriving DecidableEq, Repr

/-- Python `d[k]` / `k in d` on a dict embedded as an association list:
the first binding of `k`, if any. -/
def lookupKey {α : Type} : List (String × α) → String → Option α
  | [], _ => none
  | p :: t, k => if p.1 = k then some p.2 else lookupKey t k

/-- Python `del d[k]` on a dict embedded as an association list: every
binding of `k` removed (dict keys are unique, so at most one is). -/
def eraseKey {α : Type} : List (String × α) → String → List (String × α)
  | [], _ => []
  | p :: t, k => if p.1 = k then eraseKey t k else p :: eraseKey t k

/-- A `fastapi.HTTPException(status_code=..., detail=...)` raised by a
handler. -/
structure HttpException where
  status_code : Nat
  detail : String
deriving DecidableEq, Repr

/-- The JSON body a successful token exchange returns (src/main.py:269-274). -/
structure TokenResponse where
  access_token : String
  token_type : String
  expires_in : Nat
  scope : String
deriving DecidableEq, Repr

/-- Embedding of `token_endpoint` (src/main.py:224-274).  `now` is
`datetime.utcnow()`; `newToken` the fresh `secrets.token_urlsafe(32)` drawn on
success.  The presented `redirect_uri` form field is a parameter of the
Python handler that its body never reads.  Returns the raised `HTTPException`
or the token response, together with the table state after the call (on
success the new token is inserted and the used code deleted; on an
expired-code failure the code is deleted; every other failure leaves the
state unchanged). -/
def token_endpoint (st : OAuthState) (now : Nat) (newToken : String)
    (grant_type code redirect_uri client_id client_secret : String) :
    Except HttpException TokenResponse × OAuthState :=
  if grant_type ≠ "authorization_code" then
    (.error { status_code := 400, detail := "Unsupported grant type" }, st)
  else
    match lookupKey st.oauth_codes code with
    | none => (.error { status_code := 400, detail := "Invalid authorization code" }, st)
    | some code_data =>
      if code_data.expires_at < now then
        (.error { status_code := 400, detail := "Authorization code expired" },
         { st with oauth_codes := eraseKey st.oauth_codes code })
      else if code_data.client_id ≠ client_id then
        (.error { status_code := 400, detail := "Invalid client" }, st)
      else
        match lookupKey st.oauth_clients client_id with
        | none => (.error { status_code := 401, detail := "Invalid client credentials" }, st)
        | some client_data =>
          if client_data.client_secret ≠ client_secret then
            (.error { status_code := 401, detail := "Invalid client credentials" }, st)
          else
            (.ok { access_token := newToken, token_type := "Bearer",
                   expires_in := 86400, scope := code_data.scope },
             { st with
                 access_tokens :=
                   (newToken,
                    { client_id := client_id, scope := code_data.scope,
                      expires_at := now + 86400 }) :: st.access_tokens,
                 oauth_codes := eraseKey st.oauth_codes code })

/-- Embedding of `authorize` (src/main.py:181-221).  `newCode` is the fresh
`secrets.token_urlsafe(32)`; on success the handler returns a redirect to
`redirect_uri?code=...[&state=...]` after storing the code bound to the
client and redirect target with a 10-minute expiry. -/
def authorize (st : OAuthState) (now : Nat) (newCode : String)
    (client_id redirect_uri : String) (scope : String) (state : Option String) :
    Except HttpException String × OAuthState :=
  match lookupKey st.oauth_clients client_id with
  | none => (.error { status_code := 400, detail := "Invalid client_id" }, st)
  | some client_data =>
    if redirect_uri ∈ client_data.redirect_uris then
      (.ok (redirect_uri ++ "?code=" ++ newCode ++
            (match state with | some s => "&state=" ++ s | none => "")),
       { st with
           oauth_codes :=
             (newCode,
              { client_id := client_id, redirect_uri := redirect_uri,
                scope := scope, expires_at := now + 600 }) :: st.oauth_codes })
    else
      (.error { status_code := 400, detail := "Invalid redirect_uri" }, st)

/-- The bearer-token extraction of `get_auth_token` (src/main.py:278-280):
`auth_header and auth_header.startswith("Bearer ")`, then `auth_header[7:]`
(string operations spelled out on the character list so that the kernel can
evaluate them; an empty header is falsy and also fails the prefix test). -/
def parseBearer : Option String → Option String
  | some h =>
    if "Bearer ".data.isPrefixOf h.data then some (String.mk (h.data.drop 7)) else none
  | none => none

/-- Embedding of `get_auth_token` (src/main.py:277-290): the validated token
(or `None`) together with the `access_tokens` table after the call — an
expired token found in the table is deleted on sight. -/
def get_auth_token (tokens : List (String × TokenData)) (now : Nat)
    (auth_header : Option String) : Option String × List (String × TokenData) :=
  match parseBearer auth_header with
  | some token =>
    match lookupKey tokens token with
    | some token_data =>
      if now < token_data.expires_at then (some token, tokens)
      else (none, eraseKey tokens token)
    | none => (none, tokens)
  | none => (none, tokens)

/-- The body of a `POST /sse` request as `event_stream` reads it
(src/main.py:301-317): empty, undecodable JSON (with the decode error's
message), or a decoded request object. -/
inductive RequestBody where
  | empty
  | malformed (msg : String)
  | parsed (req : RpcRequest)

/-- The synthetic `initialize` request the endpoint dispatches on an empty
body (src/main.py:307-311). -/
def initRequest : RpcRequest :=
  { method := some "initialize", id := some (JId.num 1), params := none }

/-- Embedding of `mcp_endpoint`, the protected `POST /sse` handler
(src/main.py:293-353).  It first runs `get_auth_token` and then streams one
`data:` frame — embedded as the emitted `RpcResponse` — for every body shape;
the handler contains no `raise`, so the `HttpException` side of the result
type is never produced (the generic `except` arm producing `-32603` is
unreachable here because `handle_request` is total).  The dispatcher is
invoked whether or not a valid token was presented: `auth_token` is merely
passed along. -/
def mcp_endpoint (api : String → Except String String) (st : OAuthState)
    (now : Nat) (auth_header : Option String) (body : RequestBody) :
    Except HttpException RpcResponse × OAuthState :=
  let p := get_auth_token st.access_tokens now auth_header
  let st2 : OAuthState := { st with access_tokens := p.2 }
  match body with
  | .empty => (.ok (handle_request api p.1 initRequest).1, st2)
  | .malformed e =>
    (.ok { id := none, body := .error (-32700) ("Parse error: " ++ e) }, st2)
  | .parsed req => (.ok (handle_request api p.1 req).1, st2)

/-- A deleted key is no longer found: `k not in d` after `del d[k]`. -/
theorem lookupKey_eraseKey {α : Type} (l : List (String × α)) (k : String) :
    lookupKey (eraseKey l k) k = none := by
  induction l with
  | nil => rfl
  | cons p t ih =>
    by_cases h : p.1 = k
    · simpa [eraseKey, h] using ih
    · simpa [eraseKey, lookupKey, h] using ih

/-- C8: for every decoded request object (any method, any params, id present
or absent) and any oracle behavior, the response `handle_request` returns
carries exactly the request's id, in every branch. -/
theorem handle_request_preserves_id (api : String → Except String String)
    (tok : Option String) (req : RpcRequest) :
    (handle_request api tok req).1.id = req.id := by
  unfold handle_request send_tweet
  repeat' split
  all_goals rfl

/-- C7: a request whose method is none of `initialize`, `tools/list` and
`tools/call`, and a `tools/call` whose tool name is not `send_tweet`, both
get the `-32601` "Method not found" error response (with the request's id),
and the external call is not invoked. -/
theorem unknown_method_or_tool_32601 (api : String → Except String String)
    (tok : Option String) (req : RpcRequest)
    (h : (req.method ≠ some "initialize" ∧ req.method ≠ some "tools/list" ∧
          req.method ≠ some "tools/call") ∨
         (req.method = some "tools/call" ∧
          (req.params.getD defaultParams).name ≠ some "send_tweet")) :
    handle_request api tok req
      = ({ id := req.id, body := .error (-32601) "Method not found" }, false) := by
  rcases h with ⟨h1, h2, h3⟩ | ⟨h1, h2⟩
  · simp [handle_request, h1, h2, h3]
  · simp [handle_request, h1, h2]

/-- Witness for C7 at two concrete requests: an unknown top-level method and
a `tools/call` with an unknown tool name. -/
theorem unknown_method_or_tool_32601_witness :
    handle_request (fun _ => .ok "1") none
        { method := some "resources/list", id := some (.num 7), params := none }
      = ({ id := some (.num 7), body := .error (-32601) "Method not found" }, false) ∧
    handle_request (fun _ => .ok "1") none
        { method := some "tools/call", id := some (.str "a"),
          params := some { name := some "delete_tweet", arguments := { text := some "x" } } }
      = ({ id := some (.str "a"), body := .error (-32601) "Method not found" }, false) :=
  ⟨unknown_method_or_tool_32601 _ _ _ (Or.inl ⟨by decide, by decide, by decide⟩),
   unknown_method_or_tool_32601 _ _ _ (Or.inr ⟨rfl, by decide⟩)⟩

/-- C9: `token_endpoint` never reads the presented `redirect_uri` form
field — two token requests differing only in it have identical outcome and
identical resulting state, for every stored code and client credentials. -/
theorem token_endpoint_ignores_redirect_uri (st : OAuthState) (now : Nat)
    (newToken gt c cid cs r₁ r₂ : String) :
    token_endpoint st now newToken gt c r₁ cid cs
      = token_endpoint st now newToken gt c r₂ cid cs := rfl

/-- C10: a `tools/call` of `send_tweet` whose arguments lack the `text` key
is answered with a successful JSON-RPC `result` whose content is the
failure-flagged text of the caught `KeyError` — not an `error` object — and
the external call is not invoked. -/
theorem send_tweet_missing_text_key (api : String → Except String String)
    (tok : Option String) (rid : Option JId) :
    handle_request api tok
        { method := some "tools/call", id := rid,
          params := some { name := some "send_tweet", arguments := { text := none } } }
      = ({ id := rid,
           body := .result (.content ("❌ Failed to post tweet: " ++ keyErrorText)) },
         false) := rfl

/-- C2, evaluated at the failing input: `send_tweet` has no emptiness
validation — on the empty text it does invoke the external call (second
component `true`), and when that call succeeds it even reports success
rather than any failure message. -/
theorem send_tweet_empty_text_calls_api :
    send_tweet (fun _ => .ok "123") (some (.num 1)) { text := some "" }
      = ({ id := some (.num 1),
           body := .result (.content
             ("✅ Tweet posted successfully!\n\nTweet: " ++ "" ++ "\nURL: " ++
              ("https://twitter.com/user/status/" ++ "123"))) },
         true) := rfl

set_option maxRecDepth 4096 in
/-- C3, evaluated at the failing input: a 281-character text is neither
rejected nor kept from the external call — `send_tweet` invokes it (second
component `true`) and reports success when it succeeds. -/
theorem send_tweet_long_text_calls_api :
    280 < (String.mk (List.replicate 281 'a')).length ∧
    send_tweet (fun _ => .ok "9") (some (.num 1))
        { text := some (String.mk (List.replicate 281 'a')) }
      = ({ id := some (.num 1),
           body := .result (.content
             ("✅ Tweet posted successfully!\n\nTweet: " ++ String.mk (List.replicate 281 'a') ++
              "\nURL: " ++ ("https://twitter.com/user/status/" ++ "9"))) },
         true) := ⟨by simp [String.length], rfl⟩

/-- C1 as amended: the `POST /sse` handler runs `get_auth_token` but then
dispatches every request to `handle_request` whatever the outcome — missing,
unknown or expired tokens cause no HTTP 400/401, every body shape gets an
`.ok` SSE frame, the frame for a parsed request is exactly the dispatcher's
response (given the token-validation outcome as `auth_token`), and the
dispatcher itself never reads that token. -/
theorem mcp_endpoint_dispatches_regardless_of_auth
    (api : String → Except String String) (st : OAuthState) (now : Nat)
    (hdr : Option String) (b : RequestBody) (req : RpcRequest) :
    (∃ r, (mcp_endpoint api st now hdr b).1 = .ok r) ∧
    (mcp_endpoint api st now hdr (.parsed req)).1
      = .ok (handle_request api (get_auth_token st.access_tokens now hdr).1 req).1 ∧
    (∀ t₁ t₂ : Option String, handle_request api t₁ req = handle_request api t₂ req) := by
  refine ⟨?_, rfl, fun t₁ t₂ => rfl⟩
  cases b <;> exact ⟨_, rfl⟩

/-- C1 counterexample: a request carrying no `Authorization` header at all —
so `get_auth_token` yields no token — is still dispatched: the `/sse`
handler answers the `tools/list` request with the dispatcher's `.ok` tool
list, not with an HTTP 400/401 rejection. -/
theorem mcp_endpoint_missing_token_still_dispatched :
    (get_auth_token ([] : List (String × TokenData)) 0 none).1 = none ∧
    (mcp_endpoint (fun _ => .error "network unavailable")
        { oauth_clients := [], oauth_codes := [], access_tokens := [] } 0 none
        (.parsed { method := some "tools/list", id := some (.num 1), params := none })).1
      = .ok { id := some (.num 1), body := .result (.toolsList mcpTools) } :=
  ⟨rfl, rfl⟩

/-- C4: every authorization code is consumed at most once — after a
successful exchange the code is gone from the code table, and a second
exchange attempt with the same code fails with the HTTP 400 "Invalid
authorization code" error and changes nothing (in particular it issues no
token). -/
theorem auth_code_single_use (st st' : OAuthState) (now : Nat)
    (newToken gt c r cid cs : String) (tr : TokenResponse)
    (h : token_endpoint st now newToken gt c r cid cs = (.ok tr, st')) :
    lookupKey st'.oauth_codes c = none ∧
    ∀ now₂ nt₂ r₂ cid₂ cs₂,
      token_endpoint st' now₂ nt₂ "authorization_code" c r₂ cid₂ cs₂
        = (.error { status_code := 400, detail := "Invalid authorization code" }, st') := by
  have hcodes : lookupKey st'.oauth_codes c = none := by
    unfold token_endpoint at h
    repeat' split at h
    all_goals simp_all
    rw [← h.2]
    exact lookupKey_eraseKey _ _
  refine ⟨hcodes, fun now₂ nt₂ r₂ cid₂ cs₂ => ?_⟩
  simp [token_endpoint, hcodes]

/-- C5: an exchange of a stored but expired authorization code (with the
authorization-code grant) fails with the HTTP 400 "Authorization code
expired" error, deletes the code from the code table, and leaves the token
table untouched — no token is issued. -/
theorem expired_code_rejected_and_deleted (st : OAuthState) (now : Nat)
    (nt c r cid cs : String) (cd : CodeData)
    (hc : lookupKey st.oauth_codes c = some cd)
    (he : cd.expires_at < now) :
    token_endpoint st now nt "authorization_code" c r cid cs
      = (.error { status_code := 400, detail := "Authorization code expired" },
         { st with oauth_codes := eraseKey st.oauth_codes c }) ∧
    lookupKey (eraseKey st.oauth_codes c) c = none ∧
    (({ st with oauth_codes := eraseKey st.oauth_codes c } : OAuthState)).access_tokens
      = st.access_tokens := by
  refine ⟨?_, lookupKey_eraseKey _ _, rfl⟩
  simp [token_endpoint, hc, he]

/-- C6: a stored bearer token presented (as `Bearer <token>`) after its
expiry is rejected at once — `get_auth_token` returns no token and deletes
the entry from the token table — and every later presentation of the same
header against the resulting table is rejected as well, with no further
state change. -/
theorem expired_token_lazy_deletion (tokens : List (String × TokenData))
    (now now₂ : Nat) (hdr : Option String) (t : String) (td : TokenData)
    (hp : parseBearer hdr = some t)
    (hl : lookupKey tokens t = some td)
    (he : td.expires_at < now) :
    get_auth_token tokens now hdr = (none, eraseKey tokens t) ∧
    get_auth_token (eraseKey tokens t) now₂ hdr = (none, eraseKey tokens t) := by
  have hnl : ¬ now < td.expires_at := by omega
  constructor
  · simp [get_auth_token, hp, hl, hnl]
  · simp [get_auth_token, hp, lookupKey_eraseKey]

/-- Witness for C4: one registered client and one stored code; the exchange
at time 5 succeeds, and the instantiated conclusion follows. -/
theorem auth_code_single_use_witness :
    lookupKey
        (OAuthState.oauth_codes
          { oauth_clients :=
              [("cid", { client_secret := "sec", redirect_uris := ["http://r"],
                         client_name := "n", created_at := 0 })],
            oauth_codes := [],
            access_tokens :=
              [("tok1", { client_id := "cid", scope := "mcp", expires_at := 86405 })] })
        "code1" = none ∧
    ∀ now₂ nt₂ r₂ cid₂ cs₂,
      token_endpoint
          { oauth_clients :=
              [("cid", { client_secret := "sec", redirect_uris := ["http://r"],
                         client_name := "n", created_at := 0 })],
            oauth_codes := [],
            access_tokens :=
              [("tok1", { client_id := "cid", scope := "mcp", expires_at := 86405 })] }
          now₂ nt₂ "authorization_code" "code1" r₂ cid₂ cs₂
        = (.error { status_code := 400, detail := "Invalid authorization code" },
           { oauth_clients :=
               [("cid", { client_secret := "sec", redirect_uris := ["http://r"],
                          client_name := "n", created_at := 0 })],
             oauth_codes := [],
             access_tokens :=
               [("tok1", { client_id := "cid", scope := "mcp", expires_at := 86405 })] }) :=
  auth_code_single_use
    { oauth_clients :=
        [("cid", { client_secret := "sec", redirect_uris := ["http://r"],
                   client_name := "n", created_at := 0 })],
      oauth_codes :=
        [("code1", { client_id := "cid", redirect_uri := "http://r",
                     scope := "mcp", expires_at := 100 })],
      access_tokens := [] }
    { oauth_clients :=
        [("cid", { client_secret := "sec", redirect_uris := ["http://r"],
                   client_name := "n", created_at := 0 })],
      oauth_codes := [],
      access_tokens :=
        [("tok1", { client_id := "cid", scope := "mcp", expires_at := 86405 })] }
    5 "tok1" "authorization_code" "code1" "http://r" "cid" "sec"
    { access_token := "tok1", token_type := "Bearer", expires_in := 86400, scope := "mcp" }
    (by rfl)

/-- Witness for C5: a code stored with expiry 100 presented at time 200. -/
theorem expired_code_rejected_and_deleted_witness :
    token_endpoint
        { oauth_clients :=
            [("cid", { client_secret := "sec", redirect_uris := ["http://r"],
                       client_name := "n", created_at := 0 })],
          oauth_codes :=
            [("code1", { client_id := "cid", redirect_uri := "http://r",
                         scope := "mcp", expires_at := 100 })],
          access_tokens := [] }
        200 "tok1" "authorization_code" "code1" "http://r" "cid" "sec"
      = (.error { status_code := 400, detail := "Authorization code expired" },
         { oauth_clients :=
             [("cid", { client_secret := "sec", redirect_uris := ["http://r"],
                        client_name := "n", created_at := 0 })],
           oauth_codes :=
             eraseKey
               [("code1", { client_id := "cid", redirect_uri := "http://r",
                            scope := "mcp", expires_at := 100 })] "code1",
           access_tokens := [] }) ∧
    lookupKey
        (eraseKey
          ([("code1", { client_id := "cid", redirect_uri := "http://r",
                        scope := "mcp", expires_at := 100 })] : List (String × CodeData))
          "code1") "code1" = none ∧
    (({ oauth_clients :=
          [("cid", { client_secret := "sec", redirect_uris := ["http://r"],
                     client_name := "n", created_at := 0 })],
        oauth_codes :=
          eraseKey
            [("code1", { client_id := "cid", redirect_uri := "http://r",
                         scope := "mcp", expires_at := 100 })] "code1",
        access_tokens := [] } : OAuthState)).access_tokens = ([] : List (String × TokenData)) :=
  expired_code_rejected_and_deleted
    { oauth_clients :=
        [("cid", { client_secret := "sec", redirect_uris := ["http://r"],
                   client_name := "n", created_at := 0 })],
      oauth_codes :=
        [("code1", { client_id := "cid", redirect_uri := "http://r",
                     scope := "mcp", expires_at := 100 })],
      access_tokens := [] }
    200 "tok1" "code1" "http://r" "cid" "sec"
    { client_id := "cid", redirect_uri := "http://r", scope := "mcp", expires_at := 100 }
    (by rfl) (by decide)

/-- Witness for C6: the token `t1` stored with expiry 5, presented at time
10 and again at time 11. -/
theorem expired_token_lazy_deletion_witness :
    get_auth_token [("t1", { client_id := "c", scope := "mcp", expires_at := 5 })] 10
        (some "Bearer t1")
      = (none, eraseKey [("t1", { client_id := "c", scope := "mcp", expires_at := 5 })] "t1") ∧
    get_auth_token
        (eraseKey [("t1", { client_id := "c", scope := "mcp", expires_at := 5 })] "t1") 11
        (some "Bearer t1")
      = (none, eraseKey [("t1", { client_id := "c", scope := "mcp", expires_at := 5 })] "t1") :=
  expired_token_lazy_deletion
    [("t1", { client_id := "c", scope := "mcp", expires_at := 5 })] 10 11
    (some "Bearer t1") "t1" { client_id := "c", scope := "mcp", expires_at := 5 }
    (by decide) (by decide) (by decide)
